import Mathlib

/-!
Verification of the root dispatch-and-conversion logic of a GeoJSON
library (`src/geojson.rs`): the `GeoJson` sum type over the three
top-level document shapes, the `"type"`-tag classifier, and the
conversions between typed values and the generic JSON-object form.

The concrete shape types (`Geometry`, `Feature`, `FeatureCollection`),
their parsers and serializers, the `Error` enum, the `expect_string!`
macro and the JSON text codec live outside the verified file; they are
external collaborators here, either abstracted as parameters or
modelled from the specification (marked `Modelled from the spec:`).
-/

/-- A generic JSON value, the loosely-typed intermediate representation
(`serde_json::Value`). Numbers are modelled as integers: the core never
inspects numeric payloads, only the `"type"` key. -/
inductive JsonValue where
  | null : JsonValue
  | bool (b : Bool) : JsonValue
  | num (n : Int) : JsonValue
  | str (s : String) : JsonValue
  | arr (elems : List JsonValue) : JsonValue
  | obj (fields : List (String × JsonValue)) : JsonValue

/-- A generic JSON object (`JsonObject`): a mapping from string keys to
generic JSON values, modelled as an association list. -/
def JsonObject : Type := List (String × JsonValue)

/-- Key lookup in a generic object (`serde_json` map `get`): the value
bound to the first matching key, if any. -/
def JsonObject.get : JsonObject → String → Option JsonValue
  | [], _ => none
  | (k, v) :: rest, key => if k = key then some v else JsonObject.get rest key

/-- Modelled from the spec: the library's `Error` enum (not part of the
verified file). §7 of the spec lists `MalformedJson`, `ExpectedProperty`
and `GeoJsonUnknownType`; `ExpectedStringValue` is the format error
surfaced when a required property value is not a string
(`expect_string!`); `OtherError` stands in for the remaining variants
raised inside the delegated shape parsers. -/
inductive Error where
  | MalformedJson : Error
  | ExpectedProperty : Error
  | GeoJsonUnknownType : Error
  | ExpectedStringValue : Error
  | OtherError (code : Nat) : Error
deriving DecidableEq, Repr

/-- Modelled from the spec: the `expect_string!` macro (not part of the
verified file) extracts a string from a generic JSON value, surfacing a
format error on any non-string value. -/
def expect_string : JsonValue → Except Error String
  | JsonValue.str s => Except.ok s
  | _ => Except.error Error.ExpectedStringValue

/-- The nine-tag classifier enum (`Type` in the source; `Type` is a
reserved word in Lean, hence the prime). -/
inductive Type' where
  | Point
  | MultiPoint
  | LineString
  | MultiLineString
  | Polygon
  | MultiPolygon
  | GeometryCollection
  | Feature
  | FeatureCollection
deriving DecidableEq, Repr

/-- `Type::is_geometry_type`: membership in the geometry family. -/
def Type'.is_geometry_type : Type' → Bool
  | Type'.Point | Type'.MultiPoint
  | Type'.LineString | Type'.MultiLineString | Type'.Polygon
  | Type'.MultiPolygon | Type'.GeometryCollection => true
  | _ => false

/-- `Type::from_str`: resolve a string to a tag. A `match` on `&str` in
the source is a chain of string-equality tests. -/
def Type'.from_str (s : String) : Option Type' :=
  if s = "Point" then some Type'.Point
  else if s = "MultiPoint" then some Type'.MultiPoint
  else if s = "LineString" then some Type'.LineString
  else if s = "MultiLineString" then some Type'.MultiLineString
  else if s = "Polygon" then some Type'.Polygon
  else if s = "MultiPolygon" then some Type'.MultiPolygon
  else if s = "GeometryCollection" then some Type'.GeometryCollection
  else if s = "Feature" then some Type'.Feature
  else if s = "FeatureCollection" then some Type'.FeatureCollection
  else none

/-- The literal string of each tag (the reverse table of `from_str`,
used to state exactness of tag resolution). -/
def Type'.literal : Type' → String
  | Type'.Point => "Point"
  | Type'.MultiPoint => "MultiPoint"
  | Type'.LineString => "LineString"
  | Type'.MultiLineString => "MultiLineString"
  | Type'.Polygon => "Polygon"
  | Type'.MultiPolygon => "MultiPolygon"
  | Type'.GeometryCollection => "GeometryCollection"
  | Type'.Feature => "Feature"
  | Type'.FeatureCollection => "FeatureCollection"

/-- The nine recognized tag literals. -/
def recognizedLiterals : List String :=
  ["Point", "MultiPoint", "LineString", "MultiLineString", "Polygon",
   "MultiPolygon", "GeometryCollection", "Feature", "FeatureCollection"]

/-- The root sum type `GeoJson`, parametrized by the three external
shape types it wraps. -/
inductive GeoJson (G F FC : Type) where
  | Geometry (g : G) : GeoJson G F FC
  | Feature (f : F) : GeoJson G F FC
  | FeatureCollection (fc : FC) : GeoJson G F FC
deriving DecidableEq

/-- Modelled from the spec: the interface of the three external shape
collaborators (§6) — each provides `from_object` (its parser) and an
infallible conversion to a generic object (`impl From<&T> for
JsonObject`, written `_into` after Rust's `.into()`). -/
structure Collab (G F FC : Type) where
  geometry_from_object : JsonObject → Except Error G
  feature_from_object : JsonObject → Except Error F
  feature_collection_from_object : JsonObject → Except Error FC
  geometry_into : G → JsonObject
  feature_into : F → JsonObject
  feature_collection_into : FC → JsonObject

/-- `impl FromObject for GeoJson::from_object`: look up `"type"`,
extract the string (`expect_string!` early-returns its error), resolve
the tag, and dispatch on the family. -/
def from_object {G F FC : Type} (c : Collab G F FC) (object : JsonObject) :
    Except Error (GeoJson G F FC) :=
  match object.get "type" with
  | none => Except.error Error.ExpectedProperty
  | some t =>
    match expect_string t with
    | Except.error e => Except.error e
    | Except.ok s =>
      match Type'.from_str s with
      | some ty =>
        if ty.is_geometry_type then
          (c.geometry_from_object object).map GeoJson.Geometry
        else
          match ty with
          | Type'.Feature => (c.feature_from_object object).map GeoJson.Feature
          | Type'.FeatureCollection =>
              (c.feature_collection_from_object object).map GeoJson.FeatureCollection
          | _ => Except.error Error.GeoJsonUnknownType
      | none => Except.error Error.GeoJsonUnknownType

/-- `impl From<&GeoJson> for JsonObject`: delegate to the wrapped
value's own conversion. -/
def geojsonToObject {G F FC : Type} (c : Collab G F FC) : GeoJson G F FC → JsonObject
  | GeoJson.Geometry g => c.geometry_into g
  | GeoJson.Feature f => c.feature_into f
  | GeoJson.FeatureCollection fc => c.feature_collection_into fc

/-- `get_object`: decode text with the external codec (modelled as a
`decode` parameter, `none` standing for a codec error) and require the
top-level value to be an object. -/
def get_object (decode : String → Option JsonValue) (s : String) :
    Except Error JsonObject :=
  match decode s with
  | none => Except.error Error.MalformedJson
  | some decoded_json =>
    match decoded_json with
    | JsonValue.obj geo => Except.ok geo
    | _ => Except.error Error.MalformedJson

/-- `impl FromStr for GeoJson::from_str` (parse text): `get_object`
then `from_object`. -/
def geojson_from_str {G F FC : Type} (decode : String → Option JsonValue)
    (c : Collab G F FC) (s : String) : Except Error (GeoJson G F FC) :=
  match get_object decode s with
  | Except.error e => Except.error e
  | Except.ok object => from_object c object

/-- `impl fmt::Display for GeoJson` (serialize to text): convert to a
generic object and encode it with the external codec (modelled as an
`encode` parameter, `none` standing for a codec failure surfaced as a
formatting error). -/
def to_text {G F FC : Type} (encode : JsonValue → Option String)
    (c : Collab G F FC) (g : GeoJson G F FC) : Option String :=
  encode (JsonValue.obj (geojsonToObject c g))

/-- The round-trip hypothesis named by the spec (§8): each external
collaborator's parser inverts its own to-generic-object conversion. -/
def Inverts {G F FC : Type} (c : Collab G F FC) : Prop :=
  (∀ g, c.geometry_from_object (c.geometry_into g) = Except.ok g) ∧
  (∀ f, c.feature_from_object (c.feature_into f) = Except.ok f) ∧
  (∀ fc, c.feature_collection_from_object (c.feature_collection_into fc) = Except.ok fc)

/-- Each collaborator's serialized object carries a `"type"` key holding
its own family's tag literal: a geometry tag for geometries, `"Feature"`
for features, `"FeatureCollection"` for feature collections. -/
def TagsOwnFamily {G F FC : Type} (c : Collab G F FC) : Prop :=
  (∀ g, ∃ t : Type', t.is_geometry_type = true ∧
      (c.geometry_into g).get "type" = some (JsonValue.str t.literal)) ∧
  (∀ f, (c.feature_into f).get "type" = some (JsonValue.str "Feature")) ∧
  (∀ fc, (c.feature_collection_into fc).get "type" =
      some (JsonValue.str "FeatureCollection"))

/-- A trivial collaborator over `Unit` shapes: every parser accepts,
every conversion produces the empty object. -/
def collabU : Collab Unit Unit Unit where
  geometry_from_object := fun _ => Except.ok ()
  feature_from_object := fun _ => Except.ok ()
  feature_collection_from_object := fun _ => Except.ok ()
  geometry_into := fun _ => []
  feature_into := fun _ => []
  feature_collection_into := fun _ => []

/-- A well-behaved collaborator over `Unit` shapes: conversions emit the
family's tag, parsers accept. -/
def collabGood : Collab Unit Unit Unit where
  geometry_from_object := fun _ => Except.ok ()
  feature_from_object := fun _ => Except.ok ()
  feature_collection_from_object := fun _ => Except.ok ()
  geometry_into := fun _ => [("type", JsonValue.str "Point")]
  feature_into := fun _ => [("type", JsonValue.str "Feature")]
  feature_collection_into := fun _ => [("type", JsonValue.str "FeatureCollection")]

/-- A collaborator whose geometry parser always fails with a
distinguishable error. -/
def collabFail : Collab Unit Unit Unit where
  geometry_from_object := fun _ => Except.error (Error.OtherError 7)
  feature_from_object := fun _ => Except.error (Error.OtherError 8)
  feature_collection_from_object := fun _ => Except.error (Error.OtherError 9)
  geometry_into := fun _ => []
  feature_into := fun _ => []
  feature_collection_into := fun _ => []

/-- A concrete decoder used to exercise the text path: it recognizes two
inputs, one decoding to an object and one to an array. -/
def decode0 : String → Option JsonValue
  | "{}" => some (JsonValue.obj [])
  | "[1,2,3]" =>
      some (JsonValue.arr [JsonValue.num 1, JsonValue.num 2, JsonValue.num 3])
  | _ => none

/-- A concrete encoder that can encode the serialized form of a
`Feature` document of `collabGood`, and a matching decoder. -/
def encode1 : JsonValue → Option String
  | JsonValue.obj [("type", JsonValue.str "Feature")] => some "F"
  | _ => none

/-- Decoder matching `encode1`. -/
def decode1 : String → Option JsonValue
  | "F" => some (JsonValue.obj [("type", JsonValue.str "Feature")])
  | _ => none

/-! ## Helper lemmas (shared) -/

lemma from_str_eq_some_iff (s : String) (t : Type') :
    Type'.from_str s = some t ↔ s = Type'.literal t := by
  constructor
  · intro h
    unfold Type'.from_str at h
    split_ifs at h with h1 h2 h3 h4 h5 h6 h7 h8 h9
    all_goals try obtain rfl := Option.some.inj h
    all_goals simp_all [Type'.literal]
  · intro h
    subst h
    cases t <;> decide

lemma literal_mem_recognized (t : Type') : Type'.literal t ∈ recognizedLiterals := by
  cases t <;> decide

lemma from_str_literal (t : Type') : Type'.from_str (Type'.literal t) = some t := by
  cases t <;> decide

lemma from_str_eq_none_of_not_mem (s : String) (h : s ∉ recognizedLiterals) :
    Type'.from_str s = none := by
  cases hfs : Type'.from_str s with
  | none => rfl
  | some t =>
    exact absurd (by rw [(from_str_eq_some_iff s t).mp hfs]; exact literal_mem_recognized t) h

lemma expect_string_error_eq {v : JsonValue} {e : Error}
    (h : expect_string v = Except.error e) : e = Error.ExpectedStringValue := by
  cases v <;> simp_all [expect_string]

lemma except_map_eq_error {α β ε : Type} {x : Except ε α} {f : α → β} {e : ε}
    (h : x.map f = Except.error e) : x = Except.error e := by
  cases x <;> simp_all [Except.map]

lemma from_object_to_object {G F FC : Type} (c : Collab G F FC) (hinv : Inverts c)
    (htag : TagsOwnFamily c) (v : GeoJson G F FC) :
    from_object c (geojsonToObject c v) = Except.ok v := by
  obtain ⟨hg, hf, hfc⟩ := hinv
  obtain ⟨tg, tf, tfc⟩ := htag
  cases v with
  | Geometry g =>
    obtain ⟨t, htgeo, hget⟩ := tg g
    simp [geojsonToObject, from_object, hget, expect_string, from_str_literal t,
      htgeo, hg g, Except.map]
  | Feature f =>
    have hfs : Type'.from_str "Feature" = some Type'.Feature := from_str_literal Type'.Feature
    simp [geojsonToObject, from_object, tf f, expect_string, hfs,
      Type'.is_geometry_type, hf f, Except.map]
  | FeatureCollection fc =>
    have hfs : Type'.from_str "FeatureCollection" = some Type'.FeatureCollection :=
      from_str_literal Type'.FeatureCollection
    simp [geojsonToObject, from_object, tfc fc, expect_string, hfs,
      Type'.is_geometry_type, hfc fc, Except.map]

/-! ## Claim theorems -/

/-- C1: for every generic object whose `"type"` key holds a string that
is not one of the nine recognized tag literals, `from_object` fails with
`GeoJsonUnknownType`, for every choice of delegated shape parsers (so no
delegated parser's behaviour is ever consulted on such an object). -/
theorem from_object_unknown_tag_fails {G F FC : Type} (c : Collab G F FC)
    (object : JsonObject) (s : String)
    (hget : object.get "type" = some (JsonValue.str s))
    (hs : s ∉ recognizedLiterals) :
    from_object c object = Except.error Error.GeoJsonUnknownType := by
  simp [from_object, hget, expect_string, from_str_eq_none_of_not_mem s hs]

/-- Witness for C1 at the object `{"type": "NotAType"}`. -/
theorem from_object_unknown_tag_fails_witness :
    from_object collabU [("type", JsonValue.str "NotAType")] =
      Except.error Error.GeoJsonUnknownType :=
  from_object_unknown_tag_fails collabU [("type", JsonValue.str "NotAType")]
    "NotAType" rfl (by decide)

/-- C2: for every generic object with no `"type"` key, `from_object`
fails with `ExpectedProperty`, for every choice of delegated shape
parsers. -/
theorem from_object_missing_type_fails {G F FC : Type} (c : Collab G F FC)
    (object : JsonObject) (h : object.get "type" = none) :
    from_object c object = Except.error Error.ExpectedProperty := by
  simp [from_object, h]

/-- Witness for C2 at the empty object. -/
theorem from_object_missing_type_fails_witness :
    from_object collabU [] = Except.error Error.ExpectedProperty :=
  from_object_missing_type_fails collabU [] rfl

/-- C3: for every generic object whose `"type"` string resolves to a
geometry-family tag, `from_object` is the geometry parser's result on
the whole object wrapped with the `Geometry` constructor: success wraps
as `Geometry` (never `Feature` or `FeatureCollection`), and a parser
error is returned unchanged. -/
theorem from_object_geometry_delegates {G F FC : Type} (c : Collab G F FC)
    (object : JsonObject) (s : String) (t : Type')
    (hget : object.get "type" = some (JsonValue.str s))
    (ht : Type'.from_str s = some t)
    (hgeo : t.is_geometry_type = true) :
    from_object c object = (c.geometry_from_object object).map GeoJson.Geometry ∧
    (∀ g, c.geometry_from_object object = Except.ok g →
        from_object c object = Except.ok (GeoJson.Geometry g)) ∧
    (∀ e, c.geometry_from_object object = Except.error e →
        from_object c object = Except.error e) := by
  have hmain : from_object c object =
      (c.geometry_from_object object).map GeoJson.Geometry := by
    simp [from_object, hget, expect_string, ht, hgeo]
  refine ⟨hmain, ?_, ?_⟩
  · intro g hg
    rw [hmain, hg]
    rfl
  · intro e he
    rw [hmain, he]
    rfl

/-- Witness for C3: a failing geometry parser's error is propagated
unchanged on `{"type": "Point"}`. -/
theorem from_object_geometry_delegates_witness :
    from_object collabFail [("type", JsonValue.str "Point")] =
      Except.error (Error.OtherError 7) :=
  (from_object_geometry_delegates collabFail [("type", JsonValue.str "Point")]
    "Point" Type'.Point rfl (by decide) rfl).2.2 (Error.OtherError 7) rfl

/-- C7: tag resolution is exact — `Type::from_str` returns a tag iff
the string is character-for-character that tag's literal, and returns
no match exactly on strings outside the nine recognized literals. -/
theorem type_from_str_exact (s : String) :
    (∀ t : Type', Type'.from_str s = some t ↔ s = Type'.literal t) ∧
    (Type'.from_str s = none ↔ s ∉ recognizedLiterals) := by
  refine ⟨fun t => from_str_eq_some_iff s t, ?_, from_str_eq_none_of_not_mem s⟩
  intro hnone hmem
  simp only [recognizedLiterals, List.mem_cons, List.not_mem_nil, or_false] at hmem
  rcases hmem with rfl | rfl | rfl | rfl | rfl | rfl | rfl | rfl | rfl <;>
    exact absurd hnone (by decide)

/-- Witness for C7: `"Point"` resolves, lowercase `"point"` does not. -/
theorem type_from_str_exact_witness :
    Type'.from_str "Point" = some Type'.Point ∧ Type'.from_str "point" = none :=
  ⟨((type_from_str_exact "Point").1 Type'.Point).mpr rfl,
   (type_from_str_exact "point").2.mpr (by decide)⟩

/-- C8: `is_geometry_type` is the static partition of the nine tags —
true exactly on the seven geometry tags, false exactly on `Feature` and
`FeatureCollection`. -/
theorem is_geometry_type_partition (t : Type') :
    (t.is_geometry_type = true ↔
      (t = Type'.Point ∨ t = Type'.MultiPoint ∨ t = Type'.LineString ∨
       t = Type'.MultiLineString ∨ t = Type'.Polygon ∨ t = Type'.MultiPolygon ∨
       t = Type'.GeometryCollection)) ∧
    (t.is_geometry_type = false ↔
      (t = Type'.Feature ∨ t = Type'.FeatureCollection)) := by
  cases t <;> simp [Type'.is_geometry_type]

/-- Witness for C8 at the `Point` tag. -/
theorem is_geometry_type_partition_witness :
    Type'.Point.is_geometry_type = true :=
  (is_geometry_type_partition Type'.Point).1.mpr (Or.inl rfl)

/-- C9: for every generic object whose `"type"` key holds a non-string
JSON value, `from_object` fails with the format error for a non-string
property value, for every choice of delegated shape parsers — in
particular it does not return `ExpectedProperty`. -/
theorem from_object_nonstring_type_fails {G F FC : Type} (c : Collab G F FC)
    (object : JsonObject) (v : JsonValue)
    (hget : object.get "type" = some v) (hv : ∀ s, v ≠ JsonValue.str s) :
    from_object c object = Except.error Error.ExpectedStringValue := by
  cases v with
  | str s => exact absurd rfl (hv s)
  | null => simp [from_object, hget, expect_string]
  | bool b => simp [from_object, hget, expect_string]
  | num n => simp [from_object, hget, expect_string]
  | arr elems => simp [from_object, hget, expect_string]
  | obj fields => simp [from_object, hget, expect_string]

/-- Witness for C9 at the object `{"type": 4}`. -/
theorem from_object_nonstring_type_fails_witness :
    from_object collabU [("type", JsonValue.num 4)] =
      Except.error Error.ExpectedStringValue :=
  from_object_nonstring_type_fails collabU [("type", JsonValue.num 4)]
    (JsonValue.num 4) rfl (fun _ h => JsonValue.noConfusion h)

/-- C4: parse text (`FromStr::from_str`) fails with `MalformedJson` when
the codec cannot decode the text, fails with `MalformedJson` when the
decoded top-level value is not an object, and otherwise returns exactly
`from_object` of the decoded object. -/
theorem geojson_from_str_spec {G F FC : Type} (decode : String → Option JsonValue)
    (c : Collab G F FC) (s : String) :
    (decode s = none → geojson_from_str decode c s = Except.error Error.MalformedJson) ∧
    (∀ v, decode s = some v → (∀ o, v ≠ JsonValue.obj o) →
        geojson_from_str decode c s = Except.error Error.MalformedJson) ∧
    (∀ o, decode s = some (JsonValue.obj o) →
        geojson_from_str decode c s = from_object c o) := by
  refine ⟨?_, ?_, ?_⟩
  · intro h
    simp [geojson_from_str, get_object, h]
  · intro v h hv
    cases v with
    | obj o => exact absurd rfl (hv o)
    | null => simp [geojson_from_str, get_object, h]
    | bool b => simp [geojson_from_str, get_object, h]
    | num n => simp [geojson_from_str, get_object, h]
    | str s2 => simp [geojson_from_str, get_object, h]
    | arr elems => simp [geojson_from_str, get_object, h]
  · intro o h
    simp [geojson_from_str, get_object, h]

/-- Witness for C4: undecodable text and a decoded array both give
`MalformedJson`, and a decoded object is handed to `from_object`. -/
theorem geojson_from_str_spec_witness :
    geojson_from_str decode0 collabU "bogus" = Except.error Error.MalformedJson ∧
    geojson_from_str decode0 collabU "[1,2,3]" = Except.error Error.MalformedJson ∧
    geojson_from_str decode0 collabU "{}" = from_object collabU [] :=
  ⟨(geojson_from_str_spec decode0 collabU "bogus").1 rfl,
   (geojson_from_str_spec decode0 collabU "[1,2,3]").2.1
     (JsonValue.arr [JsonValue.num 1, JsonValue.num 2, JsonValue.num 3]) rfl
     (fun _ h => JsonValue.noConfusion h),
   (geojson_from_str_spec decode0 collabU "{}").2.2 [] rfl⟩

/-- C5 counterexample: collaborators whose parsers invert their own
conversions (the claim's only hypothesis) do not suffice for the
object-level round trip — `collabU` serializes every geometry to the
empty object, so re-parsing fails with `ExpectedProperty` instead of
returning the document. -/
theorem roundtrip_inversion_insufficient :
    Inverts collabU ∧
    from_object collabU (geojsonToObject collabU (GeoJson.Geometry ())) =
      Except.error Error.ExpectedProperty ∧
    from_object collabU (geojsonToObject collabU (GeoJson.Geometry ())) ≠
      Except.ok (GeoJson.Geometry ()) := by
  refine ⟨⟨fun _ => rfl, fun _ => rfl, fun _ => rfl⟩, rfl, fun h => ?_⟩
  rw [show geojsonToObject collabU (GeoJson.Geometry ()) = [] from rfl] at h
  exact Except.noConfusion (rfl.trans h :
    (Except.error Error.ExpectedProperty : Except Error (GeoJson Unit Unit Unit)) =
      Except.ok (GeoJson.Geometry ()))

/-- C5 amended: the round trip
`from_object (geojsonToObject (wrap v)) = ok (wrap v)` holds under the
claim's inversion hypothesis together with the additional hypothesis
that each collaborator's serialized object carries its own family's
`"type"` tag. -/
theorem roundtrip_with_tagged_collaborators {G F FC : Type} (c : Collab G F FC)
    (hinv : Inverts c) (htag : TagsOwnFamily c) (v : GeoJson G F FC) :
    from_object c (geojsonToObject c v) = Except.ok v :=
  from_object_to_object c hinv htag v

/-- Witness for the amended C5 with a well-behaved concrete
collaborator. -/
theorem roundtrip_with_tagged_collaborators_witness :
    from_object collabGood (geojsonToObject collabGood (GeoJson.Feature ())) =
      Except.ok (GeoJson.Feature ()) :=
  roundtrip_with_tagged_collaborators collabGood
    ⟨fun _ => rfl, fun _ => rfl, fun _ => rfl⟩
    ⟨fun _ => ⟨Type'.Point, rfl, rfl⟩, fun _ => rfl, fun _ => rfl⟩
    (GeoJson.Feature ())

/-- C6 counterexample: with well-behaved collaborators but a codec whose
decode does not invert encode, serializing a document and parsing the
text back fails with `MalformedJson` instead of reproducing the
document — the text round trip is not unconditional. -/
theorem text_roundtrip_codec_insufficient :
    Inverts collabGood ∧ TagsOwnFamily collabGood ∧
    to_text (fun _ => some "x") collabGood (GeoJson.Feature ()) = some "x" ∧
    geojson_from_str (fun _ => none) collabGood "x" =
      Except.error Error.MalformedJson ∧
    geojson_from_str (fun _ => none) collabGood "x" ≠
      Except.ok (GeoJson.Feature ()) := by
  refine ⟨⟨fun _ => rfl, fun _ => rfl, fun _ => rfl⟩,
    ⟨fun _ => ⟨Type'.Point, rfl, rfl⟩, fun _ => rfl, fun _ => rfl⟩,
    rfl, rfl, fun h => ?_⟩
  exact Except.noConfusion (rfl.trans h :
    (Except.error Error.MalformedJson : Except Error (GeoJson Unit Unit Unit)) =
      Except.ok (GeoJson.Feature ()))

/-- C6 amended: the text round trip holds when serialization succeeds,
the codec decodes the produced text back to the serialized object, and
the collaborators invert their conversions with correctly tagged
output: then `geojson_from_str` of that text succeeds with the original
document. -/
theorem text_roundtrip_with_codec_inversion {G F FC : Type}
    (encode : JsonValue → Option String) (decode : String → Option JsonValue)
    (c : Collab G F FC) (doc : GeoJson G F FC) (s : String)
    (hinv : Inverts c) (htag : TagsOwnFamily c)
    (_henc : to_text encode c doc = some s)
    (hdec : decode s = some (JsonValue.obj (geojsonToObject c doc))) :
    geojson_from_str decode c s = Except.ok doc := by
  simp [geojson_from_str, get_object, hdec, from_object_to_object c hinv htag doc]

/-- Witness for the amended C6 with a concrete matching encoder/decoder
pair. -/
theorem text_roundtrip_with_codec_inversion_witness :
    geojson_from_str decode1 collabGood "F" = Except.ok (GeoJson.Feature ()) :=
  text_roundtrip_with_codec_inversion encode1 decode1 collabGood
    (GeoJson.Feature ()) "F"
    ⟨fun _ => rfl, fun _ => rfl, fun _ => rfl⟩
    ⟨fun _ => ⟨Type'.Point, rfl, rfl⟩, fun _ => rfl, fun _ => rfl⟩
    rfl rfl

/-- C10: `from_object` never originates `MalformedJson` — every error it
returns is `ExpectedProperty`, `GeoJsonUnknownType`, the non-string
property format error, or exactly the error of one of the delegated
shape parsers on that object. -/
theorem from_object_error_taxonomy {G F FC : Type} (c : Collab G F FC)
    (object : JsonObject) (e : Error)
    (h : from_object c object = Except.error e) :
    e = Error.ExpectedProperty ∨ e = Error.GeoJsonUnknownType ∨
    e = Error.ExpectedStringValue ∨
    c.geometry_from_object object = Except.error e ∨
    c.feature_from_object object = Except.error e ∨
    c.feature_collection_from_object object = Except.error e := by
  unfold from_object at h
  split at h
  · exact Or.inl (Except.error.inj h).symm
  · rename_i t _
    split at h
    · rename_i e2 hes
      rw [expect_string_error_eq hes] at h
      exact Or.inr (Or.inr (Or.inl (Except.error.inj h).symm))
    · rename_i s2 _
      split at h
      · rename_i ty _
        split at h
        · exact Or.inr (Or.inr (Or.inr (Or.inl (except_map_eq_error h))))
        · split at h
          · exact Or.inr (Or.inr (Or.inr (Or.inr (Or.inl (except_map_eq_error h)))))
          · exact Or.inr (Or.inr (Or.inr (Or.inr (Or.inr (except_map_eq_error h)))))
          · exact Or.inr (Or.inl (Except.error.inj h).symm)
      · exact Or.inr (Or.inl (Except.error.inj h).symm)

/-- Witness for C10 at the empty object, whose failure is
`ExpectedProperty`. -/
theorem from_object_error_taxonomy_witness :
    Error.ExpectedProperty = Error.ExpectedProperty ∨
    Error.ExpectedProperty = Error.GeoJsonUnknownType ∨
    Error.ExpectedProperty = Error.ExpectedStringValue ∨
    collabU.geometry_from_object [] = Except.error Error.ExpectedProperty ∨
    collabU.feature_from_object [] = Except.error Error.ExpectedProperty ∨
    collabU.feature_collection_from_object [] = Except.error Error.ExpectedProperty :=
  from_object_error_taxonomy collabU [] Error.ExpectedProperty rfl
